import Mathlib

/-!
Shallow embedding of `pyxfoil.py` (class `Xfoil` and its helpers).

The Python program builds a textual command script for the external XFOIL
executable in the mutable string `self.input`, consulting the filesystem for
existence checks, line counts and file removal.  The embedding models:

* the filesystem as an association list from paths to line counts
  (`os.path.isfile`, the line count read by `LoadGeom`, and `os.remove` are
  the only filesystem facets the modelled code reads or writes; directory
  creation by `MakeOutputDir` does not affect `os.path.isfile` on data files
  and is dropped);
* `sys.exit(ErrorMessage(txt))` as an `Except` error carrying the formatted
  message and the value of `self.input` at the moment of exit;
* numbers (Reynolds number, iteration cap, angles of attack) as `Int`.  The
  driver code of the module passes integers for these (`alfs = [0, 10]`,
  `Iter=100`); Python's `'{}'`, `'{:1.1f}'`, `'{:1.2f}'` and `'{:1.2e}'`
  format specifiers restricted to integers are reproduced exactly below;
* the POSIX (non-Windows) branch of `__init__` with the default
  `xfoilpath=None`, so the executable path is the fixed Mac install location;
  the XQuartz check only prints a warning and changes no state.
-/

namespace Pyxfoil

/-! ## Filesystem model -/

/-- A filesystem snapshot: each existing regular file with its number of
lines (the only content property the code reads). -/
abbrev Fs := List (String × Nat)

/-- `os.path.isfile(p)`. -/
def isfile (fs : Fs) (p : String) : Bool :=
  fs.any (fun e => e.1 == p)

/-- `len([l for l in open(p, 'r')])`: number of lines of file `p`. -/
def lineCount (fs : Fs) (p : String) : Nat :=
  ((fs.find? (fun e => e.1 == p)).map Prod.snd).getD 0

/-- `os.remove(p)`. -/
def removeFile (fs : Fs) (p : String) : Fs :=
  fs.filter (fun e => e.1 != p)

/-! ## Python number formatting (on integer arguments) -/

/-- Round `n / d` to the nearest integer, ties to even (Python's rounding). -/
def roundHalfEven (n d : Nat) : Nat :=
  let q := n / d
  let r := n % d
  if 2 * r < d then q
  else if d < 2 * r then q + 1
  else if q % 2 = 0 then q else q + 1

/-- The exponent field of `'{:1.2e}'`: at least two digits. -/
def expDigits (e : Nat) : String :=
  if e < 10 then "0" ++ toString e else toString e

/-- `'{:1.2e}'.format(x)` for an integer `x`: scientific notation with a
two-decimal mantissa, ties rounded to even. -/
def fmtExp2 (x : Int) : String :=
  if x = 0 then "0.00e+00"
  else
    let n := x.natAbs
    let len := (Nat.toDigits 10 n).length
    let me : Nat × Nat :=
      if 3 ≤ len then (roundHalfEven n (10 ^ (len - 3)), len - 1)
      else (n * 10 ^ (3 - len), len - 1)
    let me : Nat × Nat := if 1000 ≤ me.1 then (me.1 / 10, me.2 + 1) else me
    let ds := toString me.1
    (if x < 0 then "-" else "") ++ ds.take 1 ++ "." ++ ds.drop 1 ++ "e+" ++ expDigits me.2

/-- `'{:1.1f}'.format(x)` for an integer `x`. -/
def fmtFixed1 (x : Int) : String := toString x ++ ".0"

/-- `'{:1.2f}'.format(x)` for an integer `x`. -/
def fmtFixed2 (x : Int) : String := toString x ++ ".00"

/-! ## File and process utilities -/

/-- The banner line of `ErrorMessage` (68 asterisks). -/
def errorStars : String :=
  "********************************************************************"

/-- `ErrorMessage(text)`: the formatted fatal-error message. -/
def errorMessage (text : String) : String :=
  "\n\n" ++ errorStars ++ "\n" ++ text ++ "\n" ++ errorStars ++ "\n\n"

/-- Python's `str.split(sep)` for a one-character separator, on the
character list of the string: `''.split('/') = ['']`,
`'a/b'.split('/') = ['a', 'b']`. -/
def splitChar (sep : Char) (l : List Char) : List (List Char) :=
  l.foldr (fun c acc => if c = sep then [] :: acc else (c :: acc.headD []) :: acc.tail) [[]]

/-- `GetParentDir(savename)`: everything up to and including the last `/`
(the concatenation of all `/`-components but the last, each with a trailing
`/`). -/
def getParentDir (savename : String) : String :=
  String.join (((splitChar '/' savename.toList).map String.mk).dropLast.map (fun s => s ++ "/"))

/-- Characters that Python `re` treats specially, so that interpolating them
unescaped into a pattern either raises `re.error` or changes the match.
`.` is deliberately not listed: inside the lookbehind it is a width-1
wildcard that still matches the literal parent at the leftmost match
position, so it does not disturb the literal-prefix reading used below. -/
def regexSpecial (c : Char) : Bool :=
  c == '\\' || c == '+' || c == '*' || c == '?' || c == '(' || c == ')' ||
  c == '[' || c == ']' || c == '\x7b' || c == '\x7d' || c == '|' || c == '^' || c == '$'

/-- A parent directory that `re` reads as literal text (up to the tolerated
`.` wildcard): `FindBetween`'s unescaped interpolation of such a parent into
`(?<={})` neither raises `re.error` nor changes the leftmost match, so the
literal-prefix model `findBetween` is faithful for it. -/
def reSafeParent (before : String) : Bool :=
  before.toList.all (fun c => !(regexSpecial c))

/-- A parent directory on which `re.compile` certainly raises `re.error`
inside `FindBetween`: it contains a bare quantifier (`+`, `*` or `?`) and no
other metacharacter (escape, class, group, brace, alternation, anchor) that
could absorb it, so the lookbehind is either variable-width or has nothing
to repeat.  `Xfoil.__init__` then dies with an uncaught exception — not a
formatted `sys.exit` — before any geometry check. -/
def reCrashParent (before : String) : Bool :=
  (before.toList.any (fun c => c == '+' || c == '*' || c == '?')) &&
  (before.toList.all (fun c =>
    !(c == '\\' || c == '(' || c == ')' || c == '[' || c == ']' ||
      c == '\x7b' || c == '\x7d' || c == '|' || c == '^' || c == '$')))

/-- `FindBetween(string, before, after='\.')` as called in `Xfoil.__init__`,
where `before = GetParentDir(string)` is a prefix of `string`.  The source
interpolates `before` unescaped into the regex
`(?<={})(?P<value>.*?)(?=\.)`; this definition is that regex's behaviour for
a `reSafeParent` parent, for which every pattern character is literal (with
`.` a width-1 wildcard still matching the literal parent): the regex then
matches leftmost at the end of the prefix and lazily extends to the first
`.` at or beyond it, and fails — `FindBetween` returning the fallback
string `'No Match'` — exactly when the string has no `.` at or beyond the
end of the prefix.  A parent containing a regex metacharacter instead makes
`re.compile` raise `re.error` (certainly so for `reCrashParent` parents) or
shifts the match; that departure from the literal model is represented in
`initFull`, not here.  (In the successful-match case the returned value
additionally assumes no newline between the prefix end and the first dot,
since the lazy `.*?` cannot cross one; no theorem below uses that value.) -/
def findBetween (s before : String) : String :=
  let rest := s.toList.drop before.length
  if rest.contains '.' then String.mk (rest.takeWhile (fun c => c != '.'))
  else "No Match"

/-- Default POSIX location of the executable (`xfoilpath=None`, non-Windows
branch of `__init__`). -/
def xfoilMacPath : String := "/Applications/Xfoil.app/Contents/Resources/xfoil"

/-! ## The `Xfoil` session state -/

/-- A `sys.exit(ErrorMessage(txt))`: the formatted message, together with the
contents of the command buffer `self.input` at the moment of exit (empty when
the exit happens before `self.input` is initialized). -/
structure PyxErr where
  msg : String
  inputAtExit : String
  deriving Repr, DecidableEq

/-- The mutable state of an `Xfoil` instance (the subprocess handle `self.xf`
set by `RunXfoil` is not modelled; it never feeds back into the script). -/
structure Xfoil where
  xfoilpath : String
  Re : Int
  Iter : Int
  naca : Bool
  name : String
  savepath : String
  input : String
  foil : String
  alfs : List Int
  deriving Repr, DecidableEq

/-- `Xfoil.AddInput(cmd)`: `self.input += '{}\n'.format(cmd)`. -/
def addInput (s : Xfoil) (cmd : String) : Xfoil :=
  { s with input := s.input ++ cmd ++ "\n" }

/-- `Xfoil.TurnOffGraphics()`. -/
def turnOffGraphics (s : Xfoil) : Xfoil :=
  addInput (addInput (addInput s "plop") "g f") ""

/-- `Xfoil.LoadGeom()`. -/
def loadGeom (fs : Fs) (s : Xfoil) : Except PyxErr Xfoil :=
  if s.naca then
    .ok (addInput s ("naca " ++ s.foil))
  else if ¬ isfile fs s.foil then
    .error ⟨errorMessage ("PYXFOIL ERROR: Geometry input file does not exist/" ++
      "in wrong location\n(" ++ s.foil ++ ")"), s.input⟩
  else if lineCount fs s.foil < 2 then
    .error ⟨errorMessage ("PYXFOIL ERROR: Geometry input file is empty (no data)" ++
      "\nDownload or create new file: (" ++ s.foil ++ ")"), s.input⟩
  else
    .ok (addInput s ("load " ++ s.foil))

/-- `Xfoil.SaveNameGeom()`. -/
def saveNameGeom (s : Xfoil) : String :=
  s.savepath ++ "/" ++ s.name ++ ".dat"

/-- `Xfoil.SaveNameSurfCp(alf)`: format string
`'{}/{}_surfCP_Re{:1.2e}a{:1.1f}.dat'`. -/
def saveNameSurfCp (s : Xfoil) (alf : Int) : String :=
  s.savepath ++ "/" ++ s.name ++ "_surfCP_Re" ++ fmtExp2 s.Re ++ "a" ++ fmtFixed1 alf ++ ".dat"

/-- `Xfoil.SaveNamePolar(alfs)`.  A scalar argument is wrapped into a
one-element list by the Python code; the embedding takes lists.  On `[]`
the Python code would raise `IndexError` at `alfs[0]`; the `headD`/`getLastD`
defaults are unreachable for the non-empty lists the program passes. -/
def saveNamePolar (s : Xfoil) (alfs : List Int) : String :=
  let alfrange :=
    if alfs.length = 1 then "a" ++ fmtFixed2 (alfs.headD 0)
    else "a" ++ fmtFixed1 (alfs.headD 0) ++ "-" ++ fmtFixed1 (alfs.getLastD 0)
  s.savepath ++ "/" ++ s.name ++ "_polar_Re" ++ fmtExp2 s.Re ++ alfrange ++ ".dat"

/-- `Xfoil.SaveGeom(overwrite)`: appends the save command only when
`not os.path.isfile(savename) and overwrite`. -/
def saveGeom (fs : Fs) (s : Xfoil) (overwrite : Bool) : Xfoil :=
  let savename := saveNameGeom s
  if ¬ isfile fs savename ∧ overwrite then addInput s ("save " ++ savename) else s

/-- `Xfoil.EnterOperMenu()`. -/
def enterOperMenu (s : Xfoil) : Xfoil :=
  let s := addInput s "oper"
  let s := if s.Re ≠ 0 then addInput s ("visc " ++ toString s.Re) else s
  addInput s ("iter " ++ toString s.Iter)

/-- `Xfoil.SingleAlfa(alf, SaveCP)`. -/
def singleAlfa (s : Xfoil) (alf : Int) (saveCP : Bool) : Xfoil :=
  let s := addInput s ("alfa " ++ toString alf)
  if saveCP then addInput s ("cpwr " ++ saveNameSurfCp s alf) else s

/-- The state of `Xfoil.Polar` after `self.alfs = alfs; self.EnterOperMenu()`,
just before the polar save name is resolved and the accumulation bracket is
emitted. -/
def polarSetup (s : Xfoil) (alfs : List Int) : Xfoil :=
  enterOperMenu { s with alfs := alfs }

/-- The filesystem as `Xfoil.Polar` leaves it immediately before appending
the first `pacc` command: the polar file is removed when it exists and
`overwrite` is set.  No later statement of `Polar` touches the filesystem. -/
def polarFsBefore (fs : Fs) (s : Xfoil) (alfs : List Int) (overwrite : Bool) : Fs :=
  let savename := saveNamePolar (polarSetup s alfs) alfs
  if isfile fs savename ∧ overwrite then removeFile fs savename else fs

/-- `Xfoil.Polar(alfs, SaveCP, overwrite)`.  A scalar `alfs` is wrapped into
a one-element list by the Python code; the embedding takes lists.  Returns
the filesystem (after the conditional `os.remove`) and the new session
state. -/
def polar (fs : Fs) (s : Xfoil) (alfs : List Int) (saveCP overwrite : Bool) :
    Fs × Xfoil :=
  let s1 := polarSetup s alfs
  let savename := saveNamePolar s1 alfs
  let fs1 := polarFsBefore fs s alfs overwrite
  let s2 := addInput s1 "pacc"
  let s3 := addInput s2 savename
  let s4 := addInput s3 ""
  let s5 := alfs.foldl (fun t a => singleAlfa t a saveCP) s4
  (fs1, addInput s5 "pacc")

/-- `Xfoil.Quit()`. -/
def quit (s : Xfoil) : Xfoil :=
  addInput (addInput (addInput (addInput (addInput s "") "") "") "") "quit"

/-- `Xfoil.RunXfoil(quiet)`: spawns the executable and pipes the whole of
`self.input` into it.  The returned string is what is transmitted to the
subprocess on this call; the session state is returned unchanged (the buffer
is not cleared, and `quiet` only redirects the subprocess's stdout). -/
def runXfoil (s : Xfoil) : String × Xfoil :=
  (s.input, s)

/-- `Xfoil.__init__(foil, naca, Re, Iter, xfoilpath=None, headless)` on a
POSIX system: executable check, run parameters, airfoil name, save
directory, empty command buffer, optional graphics-disable block, geometry
load.  This is the behaviour on the literal-regex domain: for `naca=false`
the airfoil name is derived through `findBetween`, whose literal-prefix
reading holds for `reSafeParent` parents; `initFull` below refines this
with the `re.error` crash path for parents outside that domain. -/
def init (fs : Fs) (foil : String) (naca : Bool) (Re Iter : Int)
    (headless : Bool) : Except PyxErr Xfoil :=
  if ¬ isfile fs xfoilMacPath then
    .error ⟨errorMessage "PYXFOIL ERROR: Xfoil.app is not installed", ""⟩
  else
    let name := if naca then "naca" ++ foil else findBetween foil (getParentDir foil)
    let savepath := "Data/" ++ name
    let s0 : Xfoil :=
      { xfoilpath := xfoilMacPath, Re := Re, Iter := Iter, naca := naca,
        name := name, savepath := savepath, input := "", foil := foil, alfs := [] }
    let s1 := if headless then turnOffGraphics s0 else s0
    loadGeom fs s1

/-- The possible outcomes of `Xfoil.__init__`, distinguishing the uncaught
`re.error` crash inside `FindBetween` from a formatted `sys.exit` and from
success. -/
inductive InitOutcome where
  /-- Construction succeeded with session state `s`. -/
  | ok (s : Xfoil)
  /-- `sys.exit(ErrorMessage(txt))` was reached. -/
  | exit (e : PyxErr)
  /-- `re.compile` raised `re.error` while building the lookbehind from the
  unescaped parent directory: the process dies with a traceback, no session
  and no formatted message. -/
  | reError
  /-- The parent directory contains a regex metacharacter outside the
  certain-crash class (`reCrashParent`): the program raises some `re.error`
  or derives a name through regex semantics that the literal model does not
  cover.  No theorem below quantifies over this region. -/
  | unmodelled
  deriving Repr

/-- `Xfoil.__init__` including the name-derivation failure path: after the
executable check and before any geometry access, `naca=false` interpolates
the parent directory unescaped into a regex; a `reCrashParent` parent makes
`re.compile` raise `re.error` there, a merely unsafe parent leaves the
modelled fragment, and otherwise construction proceeds exactly as `init`. -/
def initFull (fs : Fs) (foil : String) (naca : Bool) (Re Iter : Int)
    (headless : Bool) : InitOutcome :=
  if ¬ isfile fs xfoilMacPath then
    .exit ⟨errorMessage "PYXFOIL ERROR: Xfoil.app is not installed", ""⟩
  else if ¬ naca ∧ reCrashParent (getParentDir foil) then
    .reError
  else if ¬ naca ∧ ¬ reSafeParent (getParentDir foil) then
    .unmodelled
  else
    match init fs foil naca Re Iter headless with
    | .ok s => .ok s
    | .error e => .exit e

/-! ## Buffer-growth predicate -/

/-- `t` extends `s`: the command buffer of `t` is the buffer of `s` with some
(possibly empty) text appended. -/
def BufExtends (s t : Xfoil) : Prop :=
  ∃ u, t.input = s.input ++ u

/-! ## Spec-side path definitions (for the refinement claims) -/

/-- The surface-pressure path exactly as claim C5 words it, with an
underscore separating the Reynolds field from the `a<angle>` field. -/
def surfCpPathClaimed (s : Xfoil) (alf : Int) : String :=
  s.savepath ++ "/" ++ s.name ++ "_surfCP_Re" ++ fmtExp2 s.Re ++ "_a" ++ fmtFixed1 alf ++ ".dat"

/-- The surface-pressure path as amended: no separator between the Reynolds
field and the `a<angle>` field. -/
def surfCpPathAmended (s : Xfoil) (alf : Int) : String :=
  s.savepath ++ "/" ++ s.name ++ "_surfCP_Re" ++ fmtExp2 s.Re ++ "a" ++ fmtFixed1 alf ++ ".dat"

/-! ## Concrete filesystems and sessions for witnesses and counterexamples -/

/-- A filesystem holding only the executable. -/
def fsExe : Fs := [(xfoilMacPath, 1)]

/-- A filesystem holding the executable and the already-saved geometry file
of the `naca0012` session. -/
def fsG : Fs := [(xfoilMacPath, 1), ("Data/naca0012/naca0012.dat", 5)]

/-- A filesystem holding the executable and an existing polar output file of
the `naca0012` session for the angle range 0–10. -/
def fsP : Fs := [(xfoilMacPath, 1), ("Data/naca0012/naca0012_polar_Re0.00e+00a0.0-10.0.dat", 20)]

/-- A filesystem holding the executable and a 3-line geometry file whose
path has no `.` after the parent directory. -/
def fsN : Fs := [(xfoilMacPath, 1), ("Data/s1223dat", 3)]

/-- A filesystem holding the executable and a 3-line geometry file whose
parent directory `a+b/` contains a bare regex quantifier. -/
def fsCrash : Fs := [(xfoilMacPath, 1), ("a+b/s1223dat", 3)]

/-- A file-based session whose geometry file is absent, for exercising the
`LoadGeom` error path. -/
def sF : Xfoil :=
  { xfoilpath := xfoilMacPath, Re := 0, Iter := 100, naca := false,
    name := "No Match", savepath := "Data/No Match",
    input := "", foil := "Data/missing.dat", alfs := [] }

/-- The exit record `LoadGeom` produces on `sF` over `fsExe`. -/
def eF : PyxErr :=
  ⟨errorMessage ("PYXFOIL ERROR: Geometry input file does not exist/" ++
    "in wrong location\n(Data/missing.dat)"), ""⟩

/-- The session state produced by
`Xfoil('0012', naca=True, Re=0, Iter=100, headless=True)`. -/
def sG : Xfoil :=
  { xfoilpath := xfoilMacPath, Re := 0, Iter := 100, naca := true,
    name := "naca0012", savepath := "Data/naca0012",
    input := "plop\ng f\n\nnaca 0012\n", foil := "0012", alfs := [] }

/-- The command buffer left by the claim C1 call sequence
`Xfoil('0012', naca=True, Re=0, Iter=100, headless=True)`, `SaveGeom()`
(geometry file absent on disk), `EnterOperMenu()`, `Polar([0, 10])`,
`Quit()`. -/
def scenarioC1 : String :=
  match init fsExe "0012" true 0 100 true with
  | .error _ => ""
  | .ok s =>
    let s := saveGeom fsExe s true
    let s := enterOperMenu s
    let p := polar fsExe s [0, 10] true true
    (quit p.2).input

/-- The buffer claim C1 asserts for the scenario (with `oper` and `iter 100`
appearing exactly once). -/
def claimedC1 : String :=
  "plop\ng f\n\nnaca 0012\nsave Data/naca0012/naca0012.dat\noper\niter 100\npacc\nData/naca0012/naca0012_polar_Re0.00e+00a0.0-10.0.dat\n\nalfa 0\ncpwr Data/naca0012/naca0012_surfCP_Re0.00e+00a0.0.dat\nalfa 10\ncpwr Data/naca0012/naca0012_surfCP_Re0.00e+00a10.0.dat\npacc\n\n\n\n\nquit\n"

/-- The buffer the code actually leaves for the scenario: `Polar` calls
`EnterOperMenu` unconditionally, so `oper` and `iter 100` appear a second
time. -/
def actualC1 : String :=
  "plop\ng f\n\nnaca 0012\nsave Data/naca0012/naca0012.dat\noper\niter 100\noper\niter 100\npacc\nData/naca0012/naca0012_polar_Re0.00e+00a0.0-10.0.dat\n\nalfa 0\ncpwr Data/naca0012/naca0012_surfCP_Re0.00e+00a0.0.dat\nalfa 10\ncpwr Data/naca0012/naca0012_surfCP_Re0.00e+00a10.0.dat\npacc\n\n\n\n\nquit\n"

/-! ## Helper lemmas -/

set_option maxRecDepth 100000

theorem input_addInput (s : Xfoil) (cmd : String) :
    (addInput s cmd).input = s.input ++ (cmd ++ "\n") := by
  simp [addInput, String.append_assoc]

theorem bufExtends_refl (s : Xfoil) : BufExtends s s :=
  ⟨"", by simp⟩

theorem bufExtends_trans {s t u : Xfoil} (h1 : BufExtends s t) (h2 : BufExtends t u) :
    BufExtends s u := by
  obtain ⟨a, ha⟩ := h1
  obtain ⟨b, hb⟩ := h2
  exact ⟨a ++ b, by rw [hb, ha, String.append_assoc]⟩

theorem bufExtends_addInput (s : Xfoil) (cmd : String) : BufExtends s (addInput s cmd) :=
  ⟨cmd ++ "\n", input_addInput s cmd⟩

theorem bufExtends_addInput_of {s t : Xfoil} (h : BufExtends s t) (cmd : String) :
    BufExtends s (addInput t cmd) :=
  bufExtends_trans h (bufExtends_addInput t cmd)

theorem bufExtends_singleAlfa (s : Xfoil) (alf : Int) (saveCP : Bool) :
    BufExtends s (singleAlfa s alf saveCP) := by
  unfold singleAlfa
  by_cases hc : saveCP
  · simp only [hc, if_true]
    exact bufExtends_addInput_of (bufExtends_addInput s _) _
  · simp only [hc, if_false]
    exact bufExtends_addInput s _

theorem bufExtends_foldl (saveCP : Bool) (alfs : List Int) (s : Xfoil) :
    BufExtends s (alfs.foldl (fun t a => singleAlfa t a saveCP) s) := by
  induction alfs generalizing s with
  | nil => exact bufExtends_refl s
  | cons a as ih =>
    simp only [List.foldl_cons]
    exact bufExtends_trans (bufExtends_singleAlfa s a saveCP) (ih _)

theorem input_enterOperMenu (s : Xfoil) :
    (enterOperMenu s).input =
      s.input ++ ("oper\n" ++
        ((if s.Re ≠ 0 then "visc " ++ toString s.Re ++ "\n" else "") ++
          ("iter " ++ toString s.Iter ++ "\n"))) := by
  unfold enterOperMenu
  by_cases h : s.Re ≠ 0 <;>
    simp [h, addInput, String.append_assoc]

theorem bufExtends_enterOperMenu (s : Xfoil) : BufExtends s (enterOperMenu s) :=
  ⟨_, input_enterOperMenu s⟩

theorem isfile_removeFile (fs : Fs) (p : String) : isfile (removeFile fs p) p = false := by
  induction fs with
  | nil => rfl
  | cons e fs ih =>
    by_cases h : e.1 = p <;>
      simp_all [isfile, removeFile, List.filter_cons]

theorem reCrashParent_eq_false {b : String} (h : reSafeParent b = true) :
    reCrashParent b = false := by
  unfold reSafeParent at h
  rw [List.all_eq_true] at h
  have h1 : b.toList.any (fun c => c == '+' || c == '*' || c == '?') = false := by
    apply Bool.eq_false_iff.mpr
    intro hany
    rw [List.any_eq_true] at hany
    obtain ⟨c, hc, hq⟩ := hany
    have h2 := h c hc
    simp only [regexSpecial] at h2
    simp at h2 hq
    rcases hq with (rfl | rfl) | rfl <;> simp at h2
  unfold reCrashParent
  rw [h1, Bool.false_and]

theorem polar_input_structure (fs : Fs) (s : Xfoil) (alfs : List Int)
    (saveCP overwrite : Bool) :
    ∃ t, (polar fs s alfs saveCP overwrite).2.input =
      (polarSetup s alfs).input ++ ("pacc\n" ++ t) := by
  have h1 : BufExtends (addInput (polarSetup s alfs) "pacc")
      ((polar fs s alfs saveCP overwrite).2) := by
    show BufExtends (addInput (polarSetup s alfs) "pacc")
      (addInput (alfs.foldl (fun t a => singleAlfa t a saveCP)
        (addInput (addInput (addInput (polarSetup s alfs) "pacc")
          (saveNamePolar (polarSetup s alfs) alfs)) "")) "pacc")
    exact bufExtends_addInput_of
      (bufExtends_trans
        (bufExtends_addInput_of (bufExtends_addInput _ _) _)
        (bufExtends_foldl _ _ _)) _
  obtain ⟨u, hu⟩ := h1
  refine ⟨u, ?_⟩
  rw [hu, input_addInput, String.append_assoc]
  have hp : ("pacc" : String) ++ "\n" = "pacc\n" := rfl
  rw [hp]

/-! ## Claim theorems -/

/-- C1 counterexample: the scenario `Initialize('0012', named=true, Re=0,
iter=100, headless=true)`, `SaveGeometry()` (target absent),
`EnterAnalysisMenu()`, `RunPolar([0, 10])`, `Terminate()` does not leave the
buffer the claim states: the buffer differs from the claimed one, because
`oper` and `iter 100` each occur twice, not exactly once. -/
theorem C1_counterexample :
    scenarioC1 ≠ claimedC1 ∧
    ((splitChar '\n' scenarioC1.toList).map String.mk).count "oper" = 2 ∧
    ((splitChar '\n' scenarioC1.toList).map String.mk).count "iter 100" = 2 :=
  ⟨by decide, by decide, by decide⟩

/-- C1 amended: the scenario leaves the buffer containing, in order, the
graphics-disable lines, `naca 0012`, the save line, then `oper`, `iter 100`
TWICE (once from `EnterAnalysisMenu`, once re-emitted unconditionally by
`RunPolar`), `pacc`, the polar path, a blank, the per-angle `alfa`/`cpwr`
pairs, `pacc`, four blanks and `quit`. -/
theorem C1_amended_scenario :
    scenarioC1 = actualC1 ∧
    ((splitChar '\n' scenarioC1.toList).map String.mk).count "oper" = 2 ∧
    ((splitChar '\n' scenarioC1.toList).map String.mk).count "iter 100" = 2 :=
  ⟨by decide, by decide, by decide⟩

/-- C2 (code bug): on a session whose geometry file already exists on disk,
`SaveGeom(overwrite=True)` leaves the buffer unchanged — the code's condition
is `not isfile AND overwrite`, so the documented "Overwrite file if it
exists" behaviour (and the claim's `overwrite OR not-exists` condition) never
emits the save command for an existing file. -/
theorem C2_code_behavior :
    init fsG "0012" true 0 100 true = .ok sG ∧
    isfile fsG (saveNameGeom sG) = true ∧
    saveGeom fsG sG true = sG :=
  ⟨rfl, rfl, rfl⟩

/-- C3 counterexample: a second `RunXfoil` on the scenario session transmits
the entire (non-empty) buffer to the subprocess again, not nothing. -/
theorem C3_counterexample :
    (runXfoil (runXfoil sG).2).1 = sG.input ∧ sG.input ≠ "" :=
  ⟨rfl, by decide⟩

/-- C3 amended: `RunXfoil` leaves the session state (hence the buffer)
unchanged, and a repeated flush transmits exactly the same full buffer again
to a fresh subprocess — it is a repetition, not a no-op. -/
theorem C3_amended (s : Xfoil) :
    (runXfoil s).1 = s.input ∧
    (runXfoil s).2 = s ∧
    (runXfoil (runXfoil s).2).1 = (runXfoil s).1 :=
  ⟨rfl, rfl, rfl⟩

/-- C4: for every non-empty angle sequence, `SaveNamePolar` is built from the
first and last element only: with exactly one angle it uses the 2-decimal
single-value form, with more than one it uses the 1-decimal
`<first>-<last>` range form in the given order, and any two sequences of
length > 1 agreeing on first and last element resolve to the same name. -/
theorem C4_saveNamePolar (s : Xfoil) (alfs : List Int) (h : alfs ≠ []) :
    (alfs.length = 1 →
      saveNamePolar s alfs =
        s.savepath ++ "/" ++ s.name ++ "_polar_Re" ++ fmtExp2 s.Re ++
          ("a" ++ fmtFixed2 (alfs.headD 0)) ++ ".dat") ∧
    (1 < alfs.length →
      saveNamePolar s alfs =
        s.savepath ++ "/" ++ s.name ++ "_polar_Re" ++ fmtExp2 s.Re ++
          ("a" ++ fmtFixed1 (alfs.headD 0) ++ "-" ++ fmtFixed1 (alfs.getLastD 0)) ++ ".dat") ∧
    (∀ alfs' : List Int, 1 < alfs.length → 1 < alfs'.length →
      alfs.headD 0 = alfs'.headD 0 → alfs.getLastD 0 = alfs'.getLastD 0 →
      saveNamePolar s alfs = saveNamePolar s alfs') := by
  refine ⟨?_, ?_, ?_⟩
  · intro h1
    simp [saveNamePolar, h1]
  · intro h2
    have h1 : alfs.length ≠ 1 := by omega
    simp [saveNamePolar, h1]
  · intro alfs' h2 h2' hh hl
    have h1 : alfs.length ≠ 1 := by omega
    have h1' : alfs'.length ≠ 1 := by omega
    simp only [saveNamePolar]
    rw [if_neg h1, if_neg h1', hh, hl]

/-- C4 witness: at the session `sG`, the single angle 5 gives the 2-decimal
form and the pair [0, 10] gives the 1-decimal range form. -/
theorem C4_witness :
    saveNamePolar sG [5] = "Data/naca0012/naca0012_polar_Re0.00e+00a5.00.dat" ∧
    saveNamePolar sG [0, 10] = "Data/naca0012/naca0012_polar_Re0.00e+00a0.0-10.0.dat" :=
  ⟨((C4_saveNamePolar sG [5] (by decide)).1 (by decide)).trans (by decide),
   ((C4_saveNamePolar sG [0, 10] (by decide)).2.1 (by decide)).trans (by decide)⟩

/-- C5 counterexample: at the `naca0012` session and angle 0 the code's
surface-pressure path has no underscore between the Reynolds field and the
angle field, so it differs from the claimed underscored form. -/
theorem C5_counterexample :
    saveNameSurfCp sG 0 ≠ surfCpPathClaimed sG 0 ∧
    saveNameSurfCp sG 0 = "Data/naca0012/naca0012_surfCP_Re0.00e+00a0.0.dat" :=
  ⟨by decide, by decide⟩

/-- C5 amended: for every session and every angle, `SaveNameSurfCp` equals
`<outputDir>/<airfoilName>_surfCP_Re<Re, 2-decimal exponent>a<angle, 1
decimal>.dat` — with no separator before the `a<angle>` field. -/
theorem C5_amended (s : Xfoil) (alf : Int) :
    saveNameSurfCp s alf = surfCpPathAmended s alf :=
  rfl

/-- C6: `EnterOperMenu` appends the mode-entry command `oper` first, then
exactly one `visc <Re>` command when the Reynolds number is non-zero and
none when it is zero, then the iteration-cap command `iter <N>` last. -/
theorem C6_enterOperMenu_commands (s : Xfoil) :
    (enterOperMenu s).input =
      s.input ++ ("oper\n" ++
        ((if s.Re ≠ 0 then "visc " ++ toString s.Re ++ "\n" else "") ++
          ("iter " ++ toString s.Iter ++ "\n"))) :=
  input_enterOperMenu s

/-- C7: with `overwrite=true`, `Polar` leaves the resolved polar target file
absent on the filesystem state in force immediately before the
accumulation-start command: the state it returns is exactly the one produced
by the conditional delete, the file is absent in it, and the very next
command appended after the menu setup is `pacc`. -/
theorem C7_polar_overwrite (fs : Fs) (s : Xfoil) (alfs : List Int) (saveCP : Bool)
    (h : alfs ≠ []) :
    isfile (polarFsBefore fs s alfs true) (saveNamePolar (polarSetup s alfs) alfs) = false ∧
    (polar fs s alfs saveCP true).1 = polarFsBefore fs s alfs true ∧
    (∃ t, (polar fs s alfs saveCP true).2.input =
      (polarSetup s alfs).input ++ ("pacc\n" ++ t)) := by
  refine ⟨?_, rfl, polar_input_structure fs s alfs saveCP true⟩
  unfold polarFsBefore
  by_cases hf : isfile fs (saveNamePolar (polarSetup s alfs) alfs)
  · rw [if_pos ⟨hf, rfl⟩]
    exact isfile_removeFile fs _
  · rw [if_neg (fun hc => hf hc.1)]
    exact Bool.eq_false_iff.mpr hf

/-- C7 witness: for the `naca0012` session with angles `[0, 10]`, an existing
polar file on disk, and `overwrite=true`, the file is present beforehand and
absent in the state immediately before `pacc` is appended. -/
theorem C7_witness :
    isfile fsP (saveNamePolar (polarSetup sG [0, 10]) [0, 10]) = true ∧
    isfile (polarFsBefore fsP sG [0, 10] true)
      (saveNamePolar (polarSetup sG [0, 10]) [0, 10]) = false :=
  ⟨by decide, (C7_polar_overwrite fsP sG [0, 10] true (by decide)).1⟩

/-- C8 counterexample: with `naca=false`, a missing geometry file and
`headless=true`, the configuration error is raised with the graphics-disable
commands already queued in the buffer — not before any command was queued. -/
theorem C8_counterexample :
    init fsExe "Data/missing.dat" false 0 100 true =
      .error ⟨errorMessage ("PYXFOIL ERROR: Geometry input file does not exist/" ++
        "in wrong location\n(Data/missing.dat)"), "plop\ng f\n\n"⟩ ∧
    "plop\ng f\n\n" ≠ "" :=
  ⟨rfl, by decide⟩

/-- `init` (the literal-regex-domain model) fails with the formatted
geometry error, the graphics block already queued when `headless`. -/
theorem init_geom_error (fs : Fs) (foil : String) (Re Iter : Int) (headless : Bool)
    (hexe : isfile fs xfoilMacPath = true)
    (hbad : isfile fs foil = false ∨ lineCount fs foil < 2) :
    init fs foil false Re Iter headless =
      .error ⟨(if isfile fs foil then
                 errorMessage ("PYXFOIL ERROR: Geometry input file is empty (no data)" ++
                   "\nDownload or create new file: (" ++ foil ++ ")")
               else
                 errorMessage ("PYXFOIL ERROR: Geometry input file does not exist/" ++
                   "in wrong location\n(" ++ foil ++ ")")),
              if headless then "plop\ng f\n\n" else ""⟩ := by
  unfold init
  rw [if_neg (not_not_intro hexe)]
  cases headless <;> by_cases hf : isfile fs foil
  · have hl : lineCount fs foil < 2 := hbad.resolve_left (by simp [hf])
    simp [loadGeom, turnOffGraphics, addInput, hf, hl]
  · simp [loadGeom, turnOffGraphics, addInput, hf]
  · have hl : lineCount fs foil < 2 := hbad.resolve_left (by simp [hf])
    simp [loadGeom, turnOffGraphics, addInput, hf, hl]
  · simp [loadGeom, turnOffGraphics, addInput, hf]

/-- C8 amended: with `naca=false` and a parent directory the regex engine
reads literally, a geometry file that is missing or has fewer than 2 lines
makes `__init__` exit with the formatted configuration error; the error is
raised before the geometry-load command is queued, but when `headless=true`
the graphics-disable block is already in the buffer (with `headless=false`
the buffer is still empty).  A parent outside the literal domain instead
aborts name derivation itself (`re.error`), before any geometry check. -/
theorem C8_geom_error (fs : Fs) (foil : String) (Re Iter : Int) (headless : Bool)
    (hexe : isfile fs xfoilMacPath = true)
    (hsafe : reSafeParent (getParentDir foil) = true)
    (hbad : isfile fs foil = false ∨ lineCount fs foil < 2) :
    initFull fs foil false Re Iter headless =
      .exit ⟨(if isfile fs foil then
                errorMessage ("PYXFOIL ERROR: Geometry input file is empty (no data)" ++
                  "\nDownload or create new file: (" ++ foil ++ ")")
              else
                errorMessage ("PYXFOIL ERROR: Geometry input file does not exist/" ++
                  "in wrong location\n(" ++ foil ++ ")")),
             if headless then "plop\ng f\n\n" else ""⟩ := by
  have hinit := init_geom_error fs foil Re Iter headless hexe hbad
  unfold initFull
  rw [if_neg (not_not_intro hexe),
    if_neg (fun hc => by rw [reCrashParent_eq_false hsafe] at hc; exact absurd hc.2 (by simp)),
    if_neg (fun hc => hc.2 hsafe), hinit]

/-- C8 witness: the executable present, the geometry file
`Data/missing.dat` absent (literal parent `Data/`), `headless=true`:
`__init__` exits with the formatted missing-file error and the
graphics-disable block as the buffer at exit. -/
theorem C8_witness :
    isfile fsExe xfoilMacPath = true ∧
    reSafeParent (getParentDir "Data/missing.dat") = true ∧
    (isfile fsExe "Data/missing.dat" = false ∨ lineCount fsExe "Data/missing.dat" < 2) ∧
    initFull fsExe "Data/missing.dat" false 0 100 true =
      .exit ⟨errorMessage ("PYXFOIL ERROR: Geometry input file does not exist/" ++
        "in wrong location\n(Data/missing.dat)"), "plop\ng f\n\n"⟩ :=
  ⟨by decide, by decide, Or.inl (by decide),
   (C8_geom_error fsExe "Data/missing.dat" 0 100 true (by decide) (by decide)
     (Or.inl (by decide))).trans rfl⟩

/-- C9: every builder operation only appends to the command buffer: the
buffer before the operation is a prefix of the buffer after it (for
`LoadGeom`, in the non-exiting case; when `LoadGeom` exits instead, the
buffer carried out at the exit is still exactly the one before the call). -/
theorem C9_append_only (fs : Fs) (s : Xfoil) (cmd : String) (alf : Int)
    (alfs : List Int) (saveCP overwrite : Bool) :
    BufExtends s (addInput s cmd) ∧
    (∀ s', loadGeom fs s = .ok s' → BufExtends s s') ∧
    BufExtends s (saveGeom fs s overwrite) ∧
    BufExtends s (enterOperMenu s) ∧
    BufExtends s (singleAlfa s alf saveCP) ∧
    BufExtends s ((polar fs s alfs saveCP overwrite).2) ∧
    BufExtends s (quit s) ∧
    BufExtends s (turnOffGraphics s) ∧
    (∀ e, loadGeom fs s = .error e → e.inputAtExit = s.input) := by
  refine ⟨bufExtends_addInput s cmd, ?_, ?_, bufExtends_enterOperMenu s,
    bufExtends_singleAlfa s alf saveCP, ?_, ?_, ?_, ?_⟩
  · intro s' hok
    unfold loadGeom at hok
    split at hok
    · injection hok with h'
      subst h'
      exact bufExtends_addInput _ _
    · split at hok
      · exact absurd hok (by simp)
      · split at hok
        · exact absurd hok (by simp)
        · injection hok with h'
          subst h'
          exact bufExtends_addInput _ _
  · simp only [saveGeom]
    split
    · exact bufExtends_addInput _ _
    · exact bufExtends_refl s
  · obtain ⟨t, ht⟩ := polar_input_structure fs s alfs saveCP overwrite
    have hsetup : BufExtends s (polarSetup s alfs) :=
      ⟨_, input_enterOperMenu { s with alfs := alfs }⟩
    obtain ⟨u, hu⟩ := hsetup
    exact ⟨u ++ ("pacc\n" ++ t), by rw [ht, hu, String.append_assoc]⟩
  · unfold quit
    exact bufExtends_addInput_of (bufExtends_addInput_of (bufExtends_addInput_of
      (bufExtends_addInput_of (bufExtends_addInput _ _) _) _) _) _
  · unfold turnOffGraphics
    exact bufExtends_addInput_of (bufExtends_addInput_of (bufExtends_addInput _ _) _) _
  · intro e he
    unfold loadGeom at he
    split at he
    · simp at he
    · split at he
      · injection he with h'
        subst h'
        rfl
      · split at he
        · injection he with h'
          subst h'
          rfl
        · simp at he

/-- C9 witness: at the concrete `naca0012` session, `LoadGeom` succeeds and
its result extends the buffer, `Quit` extends the buffer, and at the
concrete failing session `sF` the `LoadGeom` exit carries the unchanged
buffer out. -/
theorem C9_witness :
    loadGeom fsG sG = .ok (addInput sG ("naca " ++ sG.foil)) ∧
    BufExtends sG (addInput sG ("naca " ++ sG.foil)) ∧
    BufExtends sG (quit sG) ∧
    (loadGeom fsExe sF = .error eF ∧ eF.inputAtExit = sF.input) :=
  ⟨rfl, (C9_append_only fsG sG "pane" 0 [0, 10] true true).2.1 _ rfl,
   (C9_append_only fsG sG "pane" 0 [0, 10] true true).2.2.2.2.2.2.1,
   rfl, (C9_append_only fsExe sF "pane" 0 [0, 10] true true).2.2.2.2.2.2.2.2 eF rfl⟩

/-- `init` (the literal-regex-domain model) succeeds with the fallback name
`No Match` when the path has no `.` after the parent directory. -/
theorem init_noMatch (fs : Fs) (foil : String) (Re Iter : Int) (headless : Bool)
    (hexe : isfile fs xfoilMacPath = true)
    (hdot : '.' ∉ foil.toList.drop (getParentDir foil).length)
    (hfile : isfile fs foil = true)
    (hlines : 2 ≤ lineCount fs foil) :
    ∃ s : Xfoil, init fs foil false Re Iter headless = .ok s ∧
      s.name = "No Match" ∧ s.savepath = "Data/No Match" := by
  have hnm : findBetween foil (getParentDir foil) = "No Match" := by
    unfold findBetween
    rw [if_neg (by simp [String.toList] at hdot ⊢; exact hdot)]
  have hnl : ¬ lineCount fs foil < 2 := by omega
  unfold init
  rw [if_neg (not_not_intro hexe)]
  cases headless <;>
    simp [loadGeom, turnOffGraphics, addInput, hnm, hfile, hnl]

/-- C10 counterexample: the extension-free path `a+b/s1223dat` satisfies the
claim's conditions (file present with 3 lines, no `.` after the parent
directory), yet `__init__` never derives the name `No Match`: the unescaped
`+` in the parent makes the lookbehind variable-width, so `re.compile`
raises `re.error` and the run dies before any geometry check. -/
theorem C10_counterexample :
    ('.' ∉ "a+b/s1223dat".toList.drop (getParentDir "a+b/s1223dat").length) ∧
    isfile fsCrash "a+b/s1223dat" = true ∧
    2 ≤ lineCount fsCrash "a+b/s1223dat" ∧
    initFull fsCrash "a+b/s1223dat" false 0 100 true = .reError :=
  ⟨by decide, by decide, by decide, rfl⟩

/-- C10 amended: for a file-based geometry source whose parent directory the
regex engine reads literally and whose path has no `.` after the parent
directory, `__init__` succeeds and derives the airfoil name `No Match` (the
regex fallback of `FindBetween`) and the output directory `Data/No Match`;
a parent containing a bare regex quantifier instead crashes `__init__` with
an uncaught `re.error`. -/
theorem C10_noMatch (fs : Fs) (foil : String) (Re Iter : Int) (headless : Bool)
    (hexe : isfile fs xfoilMacPath = true)
    (hsafe : reSafeParent (getParentDir foil) = true)
    (hdot : '.' ∉ foil.toList.drop (getParentDir foil).length)
    (hfile : isfile fs foil = true)
    (hlines : 2 ≤ lineCount fs foil) :
    ∃ s : Xfoil, initFull fs foil false Re Iter headless = .ok s ∧
      s.name = "No Match" ∧ s.savepath = "Data/No Match" := by
  obtain ⟨s, hs, hn, hp⟩ := init_noMatch fs foil Re Iter headless hexe hdot hfile hlines
  refine ⟨s, ?_, hn, hp⟩
  unfold initFull
  rw [if_neg (not_not_intro hexe),
    if_neg (fun hc => by rw [reCrashParent_eq_false hsafe] at hc; exact absurd hc.2 (by simp)),
    if_neg (fun hc => hc.2 hsafe), hs]

/-- C10 witness: a 3-line geometry file `Data/s1223dat` (literal parent, no
extension separator) yields a session named `No Match` saving under
`Data/No Match`. -/
theorem C10_witness :
    reSafeParent (getParentDir "Data/s1223dat") = true ∧
    ('.' ∉ "Data/s1223dat".toList.drop (getParentDir "Data/s1223dat").length) ∧
    ∃ s : Xfoil, initFull fsN "Data/s1223dat" false 0 100 true = .ok s ∧
      s.name = "No Match" ∧ s.savepath = "Data/No Match" :=
  ⟨by decide, by decide,
   C10_noMatch fsN "Data/s1223dat" 0 100 true (by decide) (by decide) (by decide)
     (by decide) (by decide)⟩

end Pyxfoil
